import Mathlib

/-!
Verification of the data-collection moderation queue
(`create_database.py` and `app1.py`).

The store is modelled as an explicit list of rows plus the autoincrement
counter of the `id` primary key.  The SQLAlchemy session's commit of a
single insert or update is modelled by returning the updated store;
a raised Python exception is modelled by an `Except.error` result paired
with the untouched store.  `datetime.utcnow` is modelled by an explicit
clock argument `now : Nat`, and the store-assigned `timestamp` column as
a `Nat`.
-/

namespace DataCollection

/-- `ALLOWED_CATEGORIES` of `create_database.py` line 16. -/
def ALLOWED_CATEGORIES : List String := ["religion", "language", "gender", "conspiracy"]

/-- `ALLOWED_PLATFORMS` of `create_database.py` line 17. -/
def ALLOWED_PLATFORMS : List String := ["X", "Reddit"]

/-- `ALLOWED_STATUS` of `create_database.py` line 18. -/
def ALLOWED_STATUS : List String := ["pending", "approved", "rejected"]

/-- One row of the `submissions` table (`create_database.py` lines 26-38,
`app1.py` lines 36-46).  `anonymized_text` and `context` are nullable
columns, hence `Option String`. -/
structure Submission where
  id : Nat
  text : String
  anonymized_text : Option String
  category : String
  platform : String
  context : Option String
  status : String
  timestamp : Nat
deriving Repr, DecidableEq

/-- The relational store: the rows of the `submissions` table together with
the next value of the autoincrement `id` primary key. -/
structure DB where
  rows : List Submission
  nextId : Nat
deriving Repr, DecidableEq

/-- The three `ValueError`s raised by `add_submission`
(`create_database.py` lines 73-80), each carrying the offending value that
the Python f-string interpolates into the message. -/
inductive DBError where
  | invalidCategory (c : String)
  | invalidPlatform (p : String)
  | invalidStatus (s : String)
deriving Repr, DecidableEq

/-- Python's `str.strip()` with no argument: removes leading and trailing
whitespace.  Implemented structurally on the character list so that it
evaluates on concrete strings. -/
def pyStrip (s : String) : String :=
  ⟨((s.data.dropWhile Char.isWhitespace).reverse.dropWhile Char.isWhitespace).reverse⟩

/-- Python's `a or b` for `a : Optional[str]`, `b : str`: `b` is used when
`a` is falsy, i.e. `None` or the empty string (`create_database.py`
lines 84 and 205). -/
def pyOr (a : Option String) (b : String) : String :=
  match a with
  | none => b
  | some s => if s = "" then b else s

/-- `add_submission` (`create_database.py` lines 64-92).  Validates
`category`, `platform` and `status` against the allowed sets, raising a
`ValueError` (modelled by `Except.error`, store untouched) on the first
failure; otherwise constructs the row with `anonymized_text or text` and
commits it.  Note that `text` itself is not validated. -/
def add_submission (db : DB) (now : Nat) (text category platform : String)
    (anonymized_text context : Option String) (status : String) :
    Except DBError Unit × DB :=
  if category ∉ ALLOWED_CATEGORIES then
    (.error (.invalidCategory category), db)
  else if platform ∉ ALLOWED_PLATFORMS then
    (.error (.invalidPlatform platform), db)
  else if status ∉ ALLOWED_STATUS then
    (.error (.invalidStatus status), db)
  else
    let sub : Submission :=
      { id := db.nextId
        text := text
        anonymized_text := some (pyOr anonymized_text text)
        category := category
        platform := platform
        context := context
        status := status
        timestamp := now }
    (.ok (), { rows := db.rows ++ [sub], nextId := db.nextId + 1 })

/-- The submission-form handler of `app1.py` (lines 125-146): when the
submitted text is blank after stripping it shows the error
`"⚠️ Text content cannot be empty"` and stores nothing; otherwise it
inserts a row with stripped text, `anonymized_text` equal to the stripped
text, `status = "pending"`, and `context.strip() if context else None`,
then commits. -/
def handle_submit (db : DB) (now : Nat) (text category platform : String)
    (context : Option String) : Except String Unit × DB :=
  if pyStrip text = "" then
    (.error "⚠️ Text content cannot be empty", db)
  else
    let sub : Submission :=
      { id := db.nextId
        text := pyStrip text
        anonymized_text := some (pyStrip text)
        category := category
        platform := platform
        context := match context with
          | none => none
          | some c => if c = "" then none else some (pyStrip c)
        status := "pending"
        timestamp := now }
    (.ok (), { rows := db.rows ++ [sub], nextId := db.nextId + 1 })

/-- The approve button handler of `app1.py` (lines 266-270): clicking
approve on the displayed submission sets its `status` to `"approved"` and
commits.  The handler has no failure path whatsoever — in particular it
never raises a `NotFoundError`-like exception — so the result is always
`Except.ok`; the `Except` layer only makes that absence observable.  The
row acted on is identified by the `sub.id` baked into the button key. -/
def approve_click (db : DB) (i : Nat) : Except DBError DB :=
  .ok { db with
    rows := db.rows.map fun s => if s.id = i then { s with status := "approved" } else s }

/-- The reject button handler of `app1.py` (lines 272-276): sets the
clicked submission's `status` to `"rejected"` and commits; like
`approve_click` it has no failure path. -/
def reject_click (db : DB) (i : Nat) : Except DBError DB :=
  .ok { db with
    rows := db.rows.map fun s => if s.id = i then { s with status := "rejected" } else s }

/-- The `approved` query of `export_to_csv` (`create_database.py`
line 190): all rows whose `status` is `"approved"`. -/
def approvedRows (db : DB) : List Submission :=
  db.rows.filter fun s => s.status = "approved"

/-- `export_to_csv` (`create_database.py` lines 180-212).  When no approved
rows exist it prints `"❌ No approved data to export"` and returns without
writing a file (modelled by `Except.error` carrying that message);
otherwise it writes the header row `id,text,category,platform,timestamp`
followed by one row per approved submission, writing
`s.anonymized_text or s.text` in the text column. -/
def export_to_csv (db : DB) : Except String (List (List String)) :=
  let approved := approvedRows db
  if approved.isEmpty then
    .error "❌ No approved data to export"
  else
    .ok (["id", "text", "category", "platform", "timestamp"] ::
      approved.map fun s =>
        [toString s.id, pyOr s.anonymized_text s.text, s.category, s.platform,
         toString s.timestamp])

/-- The comparison realising `ORDER BY timestamp DESC`: `a` may come
before `b` when `a`'s timestamp is at least `b`'s. -/
def tsGe (a b : Submission) : Prop := b.timestamp ≤ a.timestamp

instance : DecidableRel tsGe := fun a b => Nat.decLe b.timestamp a.timestamp

instance : IsTotal Submission tsGe :=
  ⟨fun a b => (Nat.le_total b.timestamp a.timestamp).imp id id⟩

instance : IsTrans Submission tsGe :=
  ⟨fun _ _ _ h h' => Nat.le_trans h' h⟩

/-- The pending-submissions query of the admin panel (`app1.py`
lines 250-256): filter by `status == "pending"`, order by `timestamp`
descending, limit.  The source hardcodes `limit(5)`; the limit is kept as
a parameter. -/
def list_pending (db : DB) (limit : Nat) : List Submission :=
  (((db.rows.filter fun s => s.status = "pending").insertionSort tsGe).take limit)

/-- The status invariant: every row's `status` is one of the three allowed
values. -/
def statusOk (db : DB) : Prop :=
  ∀ s ∈ db.rows, s.status ∈ ALLOWED_STATUS

/-- A concrete pending submission, used in witnesses. -/
def subPending : Submission :=
  { id := 1
    text := "test content"
    anonymized_text := some "test content"
    category := "gender"
    platform := "X"
    context := none
    status := "pending"
    timestamp := 10 }

/-- A concrete approved submission whose `anonymized_text` is the empty
string, used in witnesses. -/
def subApproved : Submission :=
  { id := 2
    text := "hello, world"
    anonymized_text := some ""
    category := "religion"
    platform := "Reddit"
    context := none
    status := "approved"
    timestamp := 20 }

/-- Helper: the success case of `add_submission`.  When the three
validations pass, the constructed row is appended and committed. -/
theorem add_submission_ok (db : DB) (now : Nat) (text category platform : String)
    (anon ctx : Option String) (status : String)
    (hc : category ∈ ALLOWED_CATEGORIES) (hp : platform ∈ ALLOWED_PLATFORMS)
    (hs : status ∈ ALLOWED_STATUS) :
    add_submission db now text category platform anon ctx status =
      (Except.ok (),
        { rows := db.rows ++
            [{ id := db.nextId
               text := text
               anonymized_text := some (pyOr anon text)
               category := category
               platform := platform
               context := ctx
               status := status
               timestamp := now }]
          nextId := db.nextId + 1 }) := by
  simp [add_submission, hc, hp, hs]

/-- C1 counterexample: `add_submission` performs no empty-text check.  On
the empty store, submitting the empty string (whose stripped form is
empty) with a valid category and platform succeeds and adds a row,
contradicting the claim that it fails with a validation error and leaves
the count unchanged. -/
theorem C1_counterexample :
    pyStrip "" = "" ∧
    (add_submission ⟨[], 1⟩ 0 "" "religion" "X" none none "pending").1 = Except.ok () ∧
    (add_submission ⟨[], 1⟩ 0 "" "religion" "X" none none "pending").2.rows.length = 1 :=
  ⟨rfl, rfl, rfl⟩

/-- C1 (amended): the empty-text check lives in the `app1.py` form
handler, not in `add_submission`.  For blank text the handler reports
"Text content cannot be empty" and leaves the store unchanged, while
`add_submission` itself accepts the same text (given valid category and
platform) and appends a row. -/
theorem C1_empty_text_checked_in_form_only (db : DB) (now : Nat)
    (text category platform : String) (ctx : Option String)
    (ht : pyStrip text = "")
    (hc : category ∈ ALLOWED_CATEGORIES) (hp : platform ∈ ALLOWED_PLATFORMS) :
    handle_submit db now text category platform ctx =
      (Except.error "⚠️ Text content cannot be empty", db) ∧
    (add_submission db now text category platform none ctx "pending").1 = Except.ok () ∧
    (add_submission db now text category platform none ctx "pending").2.rows.length =
      db.rows.length + 1 := by
  refine ⟨by simp [handle_submit, ht], ?_, ?_⟩ <;>
    simp [add_submission_ok db now text category platform none ctx "pending" hc hp
      (by decide)]

/-- C1 witness: the amended statement at a concrete blank input. -/
theorem C1_witness :
    handle_submit ⟨[], 1⟩ 0 " " "gender" "X" none =
      (Except.error "⚠️ Text content cannot be empty", ⟨[], 1⟩) ∧
    (add_submission ⟨[], 1⟩ 0 " " "gender" "X" none none "pending").1 = Except.ok () := by
  have h := C1_empty_text_checked_in_form_only ⟨[], 1⟩ 0 " " "gender" "X" none
    (by decide) (by decide) (by decide)
  exact ⟨h.1, h.2.1⟩

/-- C2 counterexample: on a store whose only row is pending (so zero
approved submissions), `export_to_csv` does not return header-only
output: it signals "No approved data to export" and writes nothing. -/
theorem C2_counterexample :
    approvedRows ⟨[subPending], 2⟩ = [] ∧
    export_to_csv ⟨[subPending], 2⟩ = Except.error "❌ No approved data to export" :=
  ⟨rfl, rfl⟩

/-- C2 (amended): whenever the store holds zero approved submissions,
`export_to_csv` refuses to export: it prints "No approved data to
export" and returns without writing any file (so no header row is
produced). -/
theorem C2_no_approved_errors (db : DB) (h : approvedRows db = []) :
    export_to_csv db = Except.error "❌ No approved data to export" := by
  simp [export_to_csv, h]

/-- C2 witness: the amended statement on the empty store. -/
theorem C2_witness :
    export_to_csv ⟨[], 5⟩ = Except.error "❌ No approved data to export" :=
  C2_no_approved_errors ⟨[], 5⟩ rfl

/-- C3 counterexample: on the empty store (which contains no submission
with id 1), both the approve and the reject handler complete
successfully with the store unchanged — neither fails with a
NotFoundError, contradicting the claim. -/
theorem C3_counterexample :
    (⟨[], 1⟩ : DB).rows = [] ∧
    approve_click ⟨[], 1⟩ 1 = Except.ok ⟨[], 1⟩ ∧
    reject_click ⟨[], 1⟩ 1 = Except.ok ⟨[], 1⟩ :=
  ⟨rfl, rfl, rfl⟩

/-- C3 (amended): the approve (resp. reject) handler sets the status of
the row with the clicked id to "approved" (resp. "rejected"), leaves all
other rows unchanged, and commits; for an id with no matching row it
does not fail — no NotFoundError exists in the code — and commits the
store unchanged. -/
theorem C3_approve_reject_semantics (db : DB) (i : Nat) :
    (∃ dbA, approve_click db i = Except.ok dbA ∧
       dbA.rows.length = db.rows.length ∧
       (∀ s ∈ db.rows, s.id = i → { s with status := "approved" } ∈ dbA.rows) ∧
       (∀ s ∈ db.rows, s.id ≠ i → s ∈ dbA.rows)) ∧
    (∃ dbR, reject_click db i = Except.ok dbR ∧
       dbR.rows.length = db.rows.length ∧
       (∀ s ∈ db.rows, s.id = i → { s with status := "rejected" } ∈ dbR.rows) ∧
       (∀ s ∈ db.rows, s.id ≠ i → s ∈ dbR.rows)) ∧
    ((∀ s ∈ db.rows, s.id ≠ i) →
       approve_click db i = Except.ok db ∧ reject_click db i = Except.ok db) := by
  refine ⟨⟨_, rfl, List.length_map _ _, ?_, ?_⟩, ⟨_, rfl, List.length_map _ _, ?_, ?_⟩, ?_⟩
  · intro s hs hid
    have := List.mem_map_of_mem
      (fun s => if s.id = i then { s with status := "approved" } else s) hs
    simpa [hid] using this
  · intro s hs hid
    have := List.mem_map_of_mem
      (fun s => if s.id = i then { s with status := "approved" } else s) hs
    simpa [hid] using this
  · intro s hs hid
    have := List.mem_map_of_mem
      (fun s => if s.id = i then { s with status := "rejected" } else s) hs
    simpa [hid] using this
  · intro s hs hid
    have := List.mem_map_of_mem
      (fun s => if s.id = i then { s with status := "rejected" } else s) hs
    simpa [hid] using this
  · intro h
    have hmap : ∀ st : String,
        (db.rows.map fun s => if s.id = i then { s with status := st } else s) = db.rows := by
      intro st
      have : (db.rows.map fun s => if s.id = i then { s with status := st } else s) =
          db.rows.map id :=
        List.map_congr_left fun s hs => by simp [h s hs]
      simpa using this
    constructor <;> simp [approve_click, reject_click, hmap]

/-- C3 witness: the amended statement for a store holding one row of
id 1 and the absent id 99. -/
theorem C3_witness :
    approve_click ⟨[subPending], 2⟩ 99 = Except.ok ⟨[subPending], 2⟩ ∧
    reject_click ⟨[subPending], 2⟩ 99 = Except.ok ⟨[subPending], 2⟩ :=
  (C3_approve_reject_semantics ⟨[subPending], 2⟩ 99).2.2 (by decide)

/-- C4: a valid call to `add_submission` that supplies neither
`anonymized_text` nor `status` persists exactly one new row whose status
is "pending" and whose `anonymized_text` equals the submitted text. -/
theorem C4_submit_defaults (db : DB) (now : Nat) (text category platform : String)
    (ctx : Option String) (_ht : pyStrip text ≠ "")
    (hc : category ∈ ALLOWED_CATEGORIES) (hp : platform ∈ ALLOWED_PLATFORMS) :
    ∃ sub : Submission,
      add_submission db now text category platform none ctx "pending" =
        (Except.ok (), { rows := db.rows ++ [sub], nextId := db.nextId + 1 }) ∧
      sub.status = "pending" ∧ sub.anonymized_text = some text ∧
      sub.text = text ∧ sub.category = category ∧ sub.platform = platform :=
  ⟨_, add_submission_ok db now text category platform none ctx "pending" hc hp (by decide),
    rfl, rfl, rfl, rfl, rfl⟩

/-- C4 witness: the scenario of spec section 8 on the empty store. -/
theorem C4_witness :
    (add_submission ⟨[], 1⟩ 7 "test content" "gender" "X" none none "pending").1 =
      Except.ok () ∧
    (add_submission ⟨[], 1⟩ 7 "test content" "gender" "X" none none "pending").2.rows.map
      (fun s => (s.status, s.anonymized_text)) = [("pending", some "test content")] := by
  obtain ⟨sub, heq, hst, han, -, -, -⟩ :=
    C4_submit_defaults ⟨[], 1⟩ 7 "test content" "gender" "X" none (by decide) (by decide)
      (by decide)
  rw [heq]
  exact ⟨rfl, by simp [hst, han]⟩

/-- C5: whenever `add_submission` fails (raises), the store it returns is
exactly the store it was given: no row is written and no commit
occurs. -/
theorem C5_no_write_on_error (db : DB) (now : Nat) (text category platform status : String)
    (anon ctx : Option String) (e : DBError)
    (h : (add_submission db now text category platform anon ctx status).1 =
      Except.error e) :
    (add_submission db now text category platform anon ctx status).2 = db := by
  by_cases hc : category ∈ ALLOWED_CATEGORIES
  · by_cases hp : platform ∈ ALLOWED_PLATFORMS
    · by_cases hs : status ∈ ALLOWED_STATUS
      · rw [add_submission_ok db now text category platform anon ctx status hc hp hs] at h
        exact absurd h (by simp)
      · simp [add_submission, hc, hp, hs]
    · simp [add_submission, hc, hp]
  · simp [add_submission, hc]

/-- C5 witness: a failing call (invalid category) at a concrete input
leaves the concrete store unchanged. -/
theorem C5_witness :
    (add_submission ⟨[subPending], 2⟩ 0 "x" "politics" "X" none none "pending").1 =
      Except.error (DBError.invalidCategory "politics") ∧
    (add_submission ⟨[subPending], 2⟩ 0 "x" "politics" "X" none none "pending").2 =
      ⟨[subPending], 2⟩ :=
  ⟨rfl, C5_no_write_on_error ⟨[subPending], 2⟩ 0 "x" "politics" "X" "pending" none none
    (DBError.invalidCategory "politics") rfl⟩

/-- C6: a category outside the allowed set makes `add_submission` raise
the invalid-category error and return the store unchanged, so no
Submission is created. -/
theorem C6_invalid_category (db : DB) (now : Nat) (text category platform status : String)
    (anon ctx : Option String) (h : category ∉ ALLOWED_CATEGORIES) :
    add_submission db now text category platform anon ctx status =
      (Except.error (DBError.invalidCategory category), db) := by
  simp [add_submission, h]

/-- C6 witness: the statement at the concrete category "sports". -/
theorem C6_witness :
    add_submission ⟨[], 1⟩ 0 "x" "sports" "X" none none "pending" =
      (Except.error (DBError.invalidCategory "sports"), ⟨[], 1⟩) :=
  C6_invalid_category ⟨[], 1⟩ 0 "x" "sports" "X" "pending" none none (by decide)

/-- C7: when at least one approved submission exists, `export_to_csv`
emits the header row followed by exactly one row per approved
submission, each row holding, in this fixed order: the id, the
anonymized text falling back to the raw text when the stored anonymized
text is empty or null, the category, the platform, and the timestamp. -/
theorem C7_export_shape (db : DB) (h : approvedRows db ≠ []) :
    ∃ body,
      export_to_csv db =
        Except.ok (["id", "text", "category", "platform", "timestamp"] :: body) ∧
      body.length = (approvedRows db).length ∧
      (∀ s ∈ approvedRows db, s.status = "approved") ∧
      (∀ s ∈ approvedRows db,
        [toString s.id, pyOr s.anonymized_text s.text, s.category, s.platform,
         toString s.timestamp] ∈ body) ∧
      (∀ k (hk : k < body.length) (hk' : k < (approvedRows db).length),
        body.get ⟨k, hk⟩ =
          [toString ((approvedRows db).get ⟨k, hk'⟩).id,
           pyOr ((approvedRows db).get ⟨k, hk'⟩).anonymized_text
             ((approvedRows db).get ⟨k, hk'⟩).text,
           ((approvedRows db).get ⟨k, hk'⟩).category,
           ((approvedRows db).get ⟨k, hk'⟩).platform,
           toString ((approvedRows db).get ⟨k, hk'⟩).timestamp]) := by
  refine ⟨(approvedRows db).map fun s =>
      [toString s.id, pyOr s.anonymized_text s.text, s.category, s.platform,
       toString s.timestamp], ?_, List.length_map _ _, ?_, ?_, ?_⟩
  · simp [export_to_csv, h]
  · intro s hs
    exact of_decide_eq_true (List.mem_filter.mp hs).2
  · intro s hs
    exact List.mem_map_of_mem _ hs
  · intro k hk hk'
    simp [List.get_eq_getElem, List.getElem_map]

/-- C7 witness: exporting a store with exactly one approved submission
(of empty anonymized text, so the raw text is used) yields the header
plus that one row. -/
theorem C7_witness :
    export_to_csv ⟨[subPending, subApproved], 3⟩ =
      Except.ok [["id", "text", "category", "platform", "timestamp"],
        ["2", "hello, world", "religion", "Reddit", "20"]] := by
  obtain ⟨body, heq, hlen, -, -, hidx⟩ :=
    C7_export_shape ⟨[subPending, subApproved], 3⟩ (by decide)
  have h1 : body.length = 1 := by simpa [approvedRows, subPending, subApproved] using hlen
  obtain ⟨b, hb⟩ := List.length_eq_one.mp h1
  subst hb
  have h0 := hidx 0 (by simp) (by decide)
  have hb0 : b = ["2", "hello, world", "religion", "Reddit", "20"] := by
    simpa [approvedRows, subPending, subApproved, pyOr] using h0
  rw [heq, hb0]

/-- C8: `list_pending` returns at most `limit` submissions, every one of
them pending, ordered by timestamp descending (each listed submission's
timestamp is at least every later one's). -/
theorem C8_list_pending_props (db : DB) (limit : Nat) :
    (list_pending db limit).length ≤ limit ∧
    (∀ s ∈ list_pending db limit, s.status = "pending") ∧
    (list_pending db limit).Pairwise fun a b => b.timestamp ≤ a.timestamp := by
  refine ⟨?_, ?_, ?_⟩
  · simp [list_pending, List.length_take]
  · intro s hs
    have h1 : s ∈ (db.rows.filter fun s => s.status = "pending").insertionSort tsGe :=
      List.mem_of_mem_take hs
    have h2 : s ∈ db.rows.filter fun s => s.status = "pending" :=
      (List.mem_insertionSort tsGe).mp h1
    exact of_decide_eq_true (List.mem_filter.mp h2).2
  · exact ((List.sorted_insertionSort tsGe _).sublist (List.take_sublist _ _))

/-- C8 witness: the statement for a concrete two-row store and limit 5. -/
theorem C8_witness :
    (list_pending ⟨[subPending, subApproved], 3⟩ 5).length ≤ 5 ∧
    subPending.status = "pending" :=
  ⟨(C8_list_pending_props ⟨[subPending, subApproved], 3⟩ 5).1,
    (C8_list_pending_props ⟨[subPending, subApproved], 3⟩ 5).2.1 subPending (by decide)⟩

/-- C9: if every row's status is one of {pending, approved, rejected},
this remains so after `add_submission` (whose status argument is
validated against exactly that set), after a form submission (which
stores "pending"), and after any approve or reject click (which store
"approved" and "rejected"). -/
theorem C9_status_invariant (db : DB) (now : Nat) (text category platform status : String)
    (anon ctx : Option String) (i : Nat) (hdb : statusOk db) :
    statusOk (add_submission db now text category platform anon ctx status).2 ∧
    statusOk (handle_submit db now text category platform ctx).2 ∧
    (∀ db1, approve_click db i = Except.ok db1 → statusOk db1) ∧
    (∀ db1, reject_click db i = Except.ok db1 → statusOk db1) := by
  refine ⟨?_, ?_, ?_, ?_⟩
  · by_cases hc : category ∈ ALLOWED_CATEGORIES
    · by_cases hp : platform ∈ ALLOWED_PLATFORMS
      · by_cases hs : status ∈ ALLOWED_STATUS
        · rw [add_submission_ok db now text category platform anon ctx status hc hp hs]
          intro s hmem
          rcases List.mem_append.mp hmem with hmem | hmem
          · exact hdb s hmem
          · rw [List.mem_singleton.mp hmem]
            exact hs
        · simpa [add_submission, hc, hp, hs] using hdb
      · simpa [add_submission, hc, hp] using hdb
    · simpa [add_submission, hc] using hdb
  · by_cases ht : pyStrip text = ""
    · simpa [handle_submit, ht] using hdb
    · simp only [handle_submit, ht, if_neg]
      intro s hmem
      rcases List.mem_append.mp hmem with hmem | hmem
      · exact hdb s hmem
      · rw [List.mem_singleton.mp hmem]
        show "pending" ∈ ALLOWED_STATUS
        decide
  · intro db1 h1
    rcases Except.ok.inj h1 with rfl
    intro s hmem
    obtain ⟨t, hts, rfl⟩ := List.mem_map.mp hmem
    by_cases hid : t.id = i
    · simp only [hid, if_pos]
      show "approved" ∈ ALLOWED_STATUS
      decide
    · simpa [hid] using hdb t hts
  · intro db1 h1
    rcases Except.ok.inj h1 with rfl
    intro s hmem
    obtain ⟨t, hts, rfl⟩ := List.mem_map.mp hmem
    by_cases hid : t.id = i
    · simp only [hid, if_pos]
      show "rejected" ∈ ALLOWED_STATUS
      decide
    · simpa [hid] using hdb t hts

/-- C9 witness: the invariant for a concrete store, call, and click. -/
theorem C9_witness :
    statusOk (add_submission ⟨[subPending], 2⟩ 9 "y" "religion" "Reddit" none none
      "approved").2 ∧
    statusOk (handle_submit ⟨[subPending], 2⟩ 9 "y" "Gender" "X" none).2 :=
  ⟨(C9_status_invariant ⟨[subPending], 2⟩ 9 "y" "religion" "Reddit" "approved" none none 1
      (by unfold statusOk; decide)).1,
    (C9_status_invariant ⟨[subPending], 2⟩ 9 "y" "Gender" "X" "approved" none none 1
      (by unfold statusOk; decide)).2.1⟩

/-- C10: supplying `anonymized_text` as the empty string behaves exactly
like omitting it — Python's `or` replaces every falsy value — so the
persisted row's `anonymized_text` equals `text`. -/
theorem C10_falsy_anonymized_defaulted (db : DB) (now : Nat)
    (text category platform status : String) (ctx : Option String)
    (hc : category ∈ ALLOWED_CATEGORIES) (hp : platform ∈ ALLOWED_PLATFORMS)
    (hs : status ∈ ALLOWED_STATUS) :
    add_submission db now text category platform (some "") ctx status =
      add_submission db now text category platform none ctx status ∧
    ∃ sub : Submission,
      add_submission db now text category platform (some "") ctx status =
        (Except.ok (), { rows := db.rows ++ [sub], nextId := db.nextId + 1 }) ∧
      sub.anonymized_text = some text :=
  ⟨rfl,
    ⟨_, add_submission_ok db now text category platform (some "") ctx status hc hp hs, rfl⟩⟩

/-- C10 witness: the statement at a concrete valid call supplying the
empty string. -/
theorem C10_witness :
    add_submission ⟨[], 1⟩ 4 "abc" "language" "X" (some "") none "pending" =
      add_submission ⟨[], 1⟩ 4 "abc" "language" "X" none none "pending" ∧
    (add_submission ⟨[], 1⟩ 4 "abc" "language" "X" (some "") none "pending").2.rows.map
      (fun s => s.anonymized_text) = [some "abc"] := by
  obtain ⟨h1, sub, h2, h3⟩ :=
    C10_falsy_anonymized_defaulted ⟨[], 1⟩ 4 "abc" "language" "X" "pending" none
      (by decide) (by decide) (by decide)
  exact ⟨h1, by rw [h2]; simp [h3]⟩

end DataCollection
